import Mathlib

/-!
Verification of the menu-critic core pipeline (menu_critic_core.py and the
session rate-limit helper of the Menu Critic page) against its specification.

Python strings are modeled as `List Char` (or Lean `String` where convenient);
Python builtins used by the code (str.strip, str.lower, float(), json.loads,
the provider client, the JPEG encoder) are modeled at their interface, with
ASCII semantics for character classification. Floats are modeled as rationals.
-/

namespace MenuCritic

/-! ## Constants (from menu_critic_core.py) -/

def MAX_TEXT_CHARS : Nat := 12000

def MAX_IMAGE_UPLOAD_BYTES : Nat := 8 * 1024 * 1024

def TARGET_IMAGE_BYTES : Nat := 3500000

def REQUEST_COOLDOWN_SECONDS : Int := 10

def TEXT_MODEL : String := "openai/gpt-oss-20b"

/-! ## Model of Python str.strip (ASCII whitespace) -/

/-- ASCII whitespace characters stripped by Python str.strip. -/
def isPySpace (c : Char) : Bool :=
  c == ' ' || c == '\t' || c == '\n' || c == '\r' || c == '\x0b' || c == '\x0c'

/-- Model of Python str.strip on a character list: drop leading and trailing
whitespace. -/
def pyStrip (l : List Char) : List Char :=
  ((l.dropWhile isPySpace).reverse.dropWhile isPySpace).reverse

/-- String-level wrapper for `pyStrip`. -/
def pyStripStr (s : String) : String :=
  String.mk (pyStrip s.toList)

/-! ## clamp_text_input (menu_critic_core.py lines 172-177) -/

/-- Embedding of `clamp_text_input`: strip, then truncate to `MAX_TEXT_CHARS`
characters when longer. -/
def clamp_text_input (text : List Char) : List Char :=
  let cleaned := pyStrip text
  if cleaned.length > MAX_TEXT_CHARS then cleaned.take MAX_TEXT_CHARS else cleaned

/-! ### C3 material -/

/-- Family of inputs whose stripped form is n+4 chars: n+1 letters, a space,
two letters. For n = 11998 the truncation point lands on the space. -/
def c3Family (n : Nat) : List Char := List.replicate (n + 1) 'a' ++ [' ', 'b', 'b']

/-- The concrete counterexample input: 11999 letters, a space, two letters. -/
def c3Input : List Char := c3Family 11998

/-! ## JSON values, as produced by json.loads

Python json.loads yields dicts (modeled as association lists with unique
keys), lists, strings, ints, floats, booleans and None. Ints and floats are
kept apart because the validator uses isinstance checks; Python treats bool
as a subclass of int, which `pyIsInt` mirrors. -/

inductive Json where
  | null : Json
  | bool : Bool → Json
  | int : Int → Json
  | float : Rat → Json
  | str : String → Json
  | arr : List Json → Json
  | obj : List (String × Json) → Json

/-- Dictionary lookup: first binding of the key, if any. -/
def getKey (kvs : List (String × Json)) (k : String) : Option Json :=
  (kvs.find? (fun p => p.1 == k)).map (fun p => p.2)

/-- Model of Python isinstance(x, int): true for ints and for bools, since
bool is a subclass of int in Python. -/
def pyIsInt : Json → Bool
  | .int _ => true
  | .bool _ => true
  | _ => false

/-- Integer value of an int-like JSON value (bools count as 0 or 1). -/
def pyIntVal : Json → Int
  | .int n => n
  | .bool b => if b then 1 else 0
  | _ => 0

def isStr : Json → Bool
  | .str _ => true
  | _ => false

/-! ## _manual_validate_critique (menu_critic_core.py lines 453-506) -/

def SCORE_KEYS : List String :=
  ["clarity", "pricing_psychology", "upsell_potential", "menu_structure",
   "dietary_signals"]

def requiredTopKeys : List String :=
  ["scores", "top_5_changes", "revenue_levers", "rewrite_examples", "ab_tests",
   "red_flags"]

/-- First key of `ks` that is absent from the dict, mirroring the loop
`for key in [...]: if key not in data: raise`. -/
def firstMissingKey (kvs : List (String × Json)) : List String → Option String
  | [] => none
  | k :: ks => if (getKey kvs k).isNone then some k else firstMissingKey kvs ks

/-- Apostrophe-quoted key name, as in the Python error f-strings. -/
def squote (k : String) : String := "\u0027" ++ k ++ "\u0027"

def checkScoreKey (skvs : List (String × Json)) (k : String) : Except String Unit :=
  match getKey skvs k with
  | none => .error ("scores missing " ++ k)
  | some v =>
    if !(pyIsInt v) then .error ("scores." ++ k ++ " must be an integer.")
    else if 0 ≤ pyIntVal v ∧ pyIntVal v ≤ 100 then .ok ()
    else .error ("scores." ++ k ++ " must be 0-100.")

def checkScores (scores : Json) : Except String Unit :=
  match scores with
  | .obj skvs => SCORE_KEYS.forM (checkScoreKey skvs)
  | _ => .error "scores must be an object."

def checkTop5 (v : Json) : Except String Unit :=
  match v with
  | .arr xs =>
    if xs.all isStr then .ok () else .error "top_5_changes items must be strings."
  | _ => .error "top_5_changes must be a list."

def revKeys : List String := ["conversion", "aov", "margin"]

def checkRevenue (v : Json) : Except String Unit :=
  match v with
  | .obj rkvs =>
    revKeys.forM (fun k =>
      match getKey rkvs k with
      | some (.arr xs) =>
        if xs.all isStr then .ok ()
        else .error ("revenue_levers." ++ k ++ " must be a string list.")
      | _ => .error ("revenue_levers." ++ k ++ " must be a string list."))
  | _ => .error "revenue_levers must be an object."

def rewriteKeys : List String := ["original", "rewritten", "why_it_helps"]

def checkRewriteItem (item : Json) : Except String Unit :=
  match item with
  | .obj ikvs =>
    rewriteKeys.forM (fun k =>
      match getKey ikvs k with
      | some (.str _) => .ok ()
      | _ => .error ("rewrite_examples item missing string " ++ squote k ++ "."))
  | _ => .error "rewrite_examples items must be objects."

def checkRewrites (v : Json) : Except String Unit :=
  match v with
  | .arr items => items.forM checkRewriteItem
  | _ => .error "rewrite_examples must be a list."

def abKeys : List String := ["hypothesis", "variant_a", "variant_b", "success_metric"]

def checkAbItem (item : Json) : Except String Unit :=
  match item with
  | .obj ikvs =>
    abKeys.forM (fun k =>
      match getKey ikvs k with
      | some (.str _) => .ok ()
      | _ => .error ("ab_tests item missing string " ++ squote k ++ "."))
  | _ => .error "ab_tests items must be objects."

def checkAbTests (v : Json) : Except String Unit :=
  match v with
  | .arr items => items.forM checkAbItem
  | _ => .error "ab_tests must be a list."

def checkRedFlags (v : Json) : Except String Unit :=
  match v with
  | .arr xs =>
    if xs.all isStr then .ok () else .error "red_flags must be a string list."
  | _ => .error "red_flags must be a string list."

/-- Embedding of `_manual_validate_critique`: the checks run in source order
and the first failing check raises ValueError with the given message. -/
def manual_validate_critique (data : Json) : Except String Json :=
  match data with
  | .obj kvs =>
    match firstMissingKey kvs requiredTopKeys with
    | some k => .error ("Missing key: " ++ k)
    | none =>
      checkScores ((getKey kvs "scores").getD .null) >>= fun _ =>
      checkTop5 ((getKey kvs "top_5_changes").getD .null) >>= fun _ =>
      checkRevenue ((getKey kvs "revenue_levers").getD .null) >>= fun _ =>
      checkRewrites ((getKey kvs "rewrite_examples").getD .null) >>= fun _ =>
      checkAbTests ((getKey kvs "ab_tests").getD .null) >>= fun _ =>
      checkRedFlags ((getKey kvs "red_flags").getD .null) >>= fun _ =>
      .ok (Json.obj kvs)
  | _ => .error "Top-level JSON must be an object."

/-! ## Substring search and _is_rate_limit_error (lines 323-325) -/

/-- True when the needle is a prefix of the haystack (char lists). -/
def leadMatch : List Char → List Char → Bool
  | [], _ => true
  | _ :: _, [] => false
  | a :: as, b :: bs => a == b && leadMatch as bs

/-- True when the needle occurs contiguously in the haystack: model of the
Python `needle in hay` substring test. -/
def containsSeq (needle : List Char) : List Char → Bool
  | [] => needle.isEmpty
  | b :: t => leadMatch needle (b :: t) || containsSeq needle t

def strContains (hay needle : String) : Bool := containsSeq needle.toList hay.toList

/-- Model of Python str.lower, ASCII case mapping. -/
def pyLower (s : String) : String := String.mk (s.toList.map Char.toLower)

/-- Model of Python str.startswith. -/
def pyStartsWith (s pre : String) : Bool := leadMatch pre.toList s.toList

/-- Embedding of `_is_rate_limit_error`: lowercase the exception text and look
for any of three substrings. -/
def is_rate_limit_error (exc : String) : Bool :=
  let text := pyLower exc
  strContains text "rate limit" || strContains text "429" ||
    strContains text "too many requests"

/-! ## Prompt construction (lines 394-450) -/

/-- Embedding of `_critique_system_prompt`. -/
def critique_system_prompt : String :=
  "You are Menu Critic, an expert in restaurant menu conversion optimization, average order value, and customer experience. Always respond in English and output JSON only (no markdown).\nIf mode is Roast, be funny and specific but never cruel. Roast the menu copy/layout/pricing choices, not the owner or any people. No harassment, slurs, or personal attacks.\nIn Roast mode, use sharper humor, vivid metaphors, playful one-liners, and consultant-style sarcasm while still being actionable.\nAvoid bland corporate wording in Roast mode. Each major point should sound like a real roast, not a polite audit.\nFocus on practical, testable improvements."

/-- The roast-mode block of the user prompt. -/
def roast_mode_requirements : String :=
  "Roast style requirements:\n- Make the critique genuinely funny and specific (not generic, not mild).\n- Roast the menu writing/structure/pricing like a witty consultant doing stand-up with receipts.\n- Every joke must still include a useful fix.\n- Keep it playful, not cruel, and never target people.\n- `top_5_changes` and `red_flags` should read like punchy roasts with actionable advice.\n- Prefer lines that combine a roast + fix in one sentence.\n- Use colorful phrasing (examples of tone only): \u0027reads like a tax form\u0027, \u0027buried like a secret menu witness\u0027, \u0027priced like it includes a side of rent\u0027.\n- Do not overuse the same joke structure.\n- `rewrite_examples[].why_it_helps` should keep a witty tone while explaining the conversion logic.\n- `ab_tests[].hypothesis` can be playful, but `success_metric` must stay practical.\n\n"

/-- The fix-mode block of the user prompt. -/
def fix_mode_requirements : String :=
  "Fix mode requirements:\n- Prioritize clarity, revenue impact, and implementation practicality.\n- Be direct and operator-friendly.\n\n"

/-- Model of `(context or \"\").strip() or \"Not provided\"`. -/
def safe_context_of (context : Option String) : String :=
  let c := pyStripStr (context.getD "")
  if c = "" then "Not provided" else c

/-- The part of the user prompt before the mode-specific block. -/
def prompt_head (mode goal safe_context : String) : String :=
  "Analyze this restaurant menu and return a critique using the required JSON schema.\n\nMode: " ++
  mode ++ "\nPrimary goal: " ++ goal ++ "\nRestaurant context: " ++ safe_context ++
  "\n\nScoring guidance:\n- clarity: readability, naming, scannability\n- pricing_psychology: anchors, decoys, price formatting, value framing\n- upsell_potential: combos, add-ons, sizing, pairings\n- menu_structure: grouping, flow, hierarchy\n- dietary_signals: labels for vegetarian/vegan/gluten-free/allergens\n\n"

/-- The part of the user prompt after the mode-specific block. -/
def prompt_tail (menu_text : String) : String :=
  "Requirements:\n- Provide exactly 5 top_5_changes if possible.\n- Rewrite examples should be concrete menu line upgrades.\n- In Roast mode, rewrite_examples should preserve the humor in the explanation but keep the rewritten menu line usable.\n- A/B tests should be realistic for a restaurant menu or online ordering page.\n- Red flags should call out confusing, risky, or conversion-killing issues.\n- Keep all output in English.\n\nRoast calibration (only if mode is Roast): aim for 7/10 funny, 10/10 useful.\n\nMenu text:\n" ++
  menu_text

/-- The mode-specific block: the roast block iff mode.lower() starts with
the word roast, else the fix block. -/
def mode_specific_of (mode : String) : String :=
  if pyStartsWith (pyLower mode) "roast" then roast_mode_requirements
  else fix_mode_requirements

/-- Embedding of `_critique_user_prompt`. -/
def critique_user_prompt (menu_text mode goal : String) (context : Option String) : String :=
  prompt_head mode goal (safe_context_of context) ++ mode_specific_of mode ++
    prompt_tail menu_text

/-! ## analyze_menu_text (lines 509-598)

The provider client and json.loads are external: they are modeled as oracle
functions passed in. The returned list records every chat request issued, in
order, so the fallback protocol is visible in the result. -/

inductive RespFormat where
  | jsonSchema : RespFormat
  | jsonObject : RespFormat
deriving DecidableEq

inductive CallOutcome where
  | success : String → CallOutcome
  | failure : String → CallOutcome

structure ChatRequest where
  model : String
  temperature : Rat
  systemPrompt : String
  userPrompt : String
  responseFormat : RespFormat
deriving DecidableEq

inductive AnalyzeError where
  | invalidJSON : String → String → AnalyzeError
  | rateLimitLike : String → AnalyzeError
  | menuCritic : String → AnalyzeError

/-- Temperature policy: 0.35 when mode.lower() starts with fix, else 1.0. -/
def temperature_for (mode : String) : Rat :=
  if pyStartsWith (pyLower mode) "fix" then 35 / 100 else 1

/-- The primary (json_schema) chat request built from create_kwargs. -/
def primary_request (menu_text mode goal : String) (context : Option String) : ChatRequest :=
  { model := TEXT_MODEL
    temperature := temperature_for mode
    systemPrompt := critique_system_prompt
    userPrompt := critique_user_prompt menu_text mode goal context
    responseFormat := .jsonSchema }

/-- The fallback request: the same create_kwargs with json_object format. -/
def fallback_request (r : ChatRequest) : ChatRequest :=
  { r with responseFormat := .jsonObject }

/-- The tail of analyze_menu_text once a response body is in hand: strip it,
parse it, validate it; a parse failure or a shape failure raises
InvalidJSONResponse carrying the raw output. -/
def analyze_post_parse (parsed : Option Json) (raw_output : String)
    (fmt : RespFormat) : Except AnalyzeError (Json × String × RespFormat) :=
  match parsed with
  | none => .error (.invalidJSON raw_output "Model returned invalid JSON")
  | some data =>
    match manual_validate_critique data with
    | .error e => .error (.invalidJSON raw_output ("JSON shape was invalid: " ++ e))
    | .ok v => .ok (v, raw_output, fmt)

/-- Embedding of `analyze_menu_text`. `provider` models the Groq client call
(content is handed to `_chat_content_text`, which strips it) and `json_loads`
models json.loads (none on a decode error). The second component lists the
chat requests issued, in order. -/
def analyze_menu_text (provider : ChatRequest → CallOutcome)
    (json_loads : String → Option Json) (menu_text mode goal : String)
    (context : Option String) :
    Except AnalyzeError (Json × String × RespFormat) × List ChatRequest :=
  match provider (primary_request menu_text mode goal context) with
  | .success content =>
    (analyze_post_parse (json_loads (pyStripStr content)) (pyStripStr content)
       .jsonSchema,
     [primary_request menu_text mode goal context])
  | .failure exc =>
    if is_rate_limit_error exc then
      (.error (.rateLimitLike exc), [primary_request menu_text mode goal context])
    else
      match provider (fallback_request (primary_request menu_text mode goal context)) with
      | .success content =>
        (analyze_post_parse (json_loads (pyStripStr content)) (pyStripStr content)
           .jsonObject,
         [primary_request menu_text mode goal context,
          fallback_request (primary_request menu_text mode goal context)])
      | .failure exc2 =>
        if is_rate_limit_error exc2 then
          (.error (.rateLimitLike exc2),
           [primary_request menu_text mode goal context,
            fallback_request (primary_request menu_text mode goal context)])
        else
          (.error (.menuCritic ("Groq request failed: " ++ exc2)),
           [primary_request menu_text mode goal context,
            fallback_request (primary_request menu_text mode goal context)])

/-! ## validate_menu_like_text (lines 180-251)

The two regexes are translated to character scanners with Python re semantics
restricted to ASCII: `[$€£]\s?\d` and `\b\d\x7b1,3\x7d\.\d\x7b2\x7d\b`, where a
word boundary separates a word char (letter, digit, underscore) from a
non-word char or the string edge. -/

def isCurrency (c : Char) : Bool := c == '$' || c == '€' || c == '£'

/-- ASCII characters matched by the regex class backslash-s. -/
def isRegexSpace (c : Char) : Bool :=
  c == ' ' || c == '\t' || c == '\n' || c == '\r' || c == '\x0b' || c == '\x0c'

/-- ASCII characters matched by the regex class backslash-w. -/
def isWordChar (c : Char) : Bool := c.isAlphanum || c == '_'

/-- Match of the first price alternative (currency symbol, optional single
whitespace, digit) starting at this position. -/
def price1At : List Char → Bool
  | c :: d :: rest =>
    isCurrency c &&
      (d.isDigit || (isRegexSpace d && (match rest with
        | e :: _ => e.isDigit
        | [] => false)))
  | _ => false

/-- Match of the second price alternative with a digit-run of length k before
the dot, two digits after it, and a trailing word boundary. -/
def price2WithK (l : List Char) (k : Nat) : Bool :=
  let pre := l.take k
  let rest := l.drop k
  (pre.length == k) && pre.all Char.isDigit &&
  (match rest with
   | '.' :: d1 :: d2 :: rest2 =>
     d1.isDigit && d2.isDigit &&
       (match rest2 with
        | [] => true
        | c :: _ => !(isWordChar c))
   | _ => false)

/-- Match of the second price alternative at this position: leading word
boundary against the previous character, then some k in 1..3. -/
def price2At (prev : Option Char) (l : List Char) : Bool :=
  (match prev with
   | none => true
   | some c => !(isWordChar c)) &&
  (price2WithK l 1 || price2WithK l 2 || price2WithK l 3)

/-- Scan all positions for either price alternative, tracking the previous
character for the word boundary. -/
def has_price_scan : Option Char → List Char → Bool
  | _, [] => false
  | prev, c :: rest =>
    price1At (c :: rest) || price2At prev (c :: rest) || has_price_scan (some c) rest

/-- Model of `re.search` with the price regex, as a boolean. -/
def has_price (candidate : List Char) : Bool := has_price_scan none candidate

/-- Maximal runs of ASCII letters, accumulator-based. -/
def alphaRunsAux : List Char → List Char → List (List Char)
  | [], cur => if cur.isEmpty then [] else [cur.reverse]
  | c :: rest, cur =>
    if c.isAlpha then alphaRunsAux rest (c :: cur)
    else if cur.isEmpty then alphaRunsAux rest []
    else cur.reverse :: alphaRunsAux rest []

/-- Model of `re.findall` with pattern letter-runs of length at least 2:
maximal ASCII-letter runs, keeping those of length at least 2. -/
def findall_tokens (l : List Char) : List (List Char) :=
  (alphaRunsAux l []).filter (fun t => 2 ≤ t.length)

def menu_words : List String :=
  ["menu", "burger", "pizza", "salad", "drink", "appetizer", "dessert",
   "chicken", "fries", "soup", "sandwich", "pasta", "rice", "combo", "add on",
   "addons"]

def has_menu_words (lowered : List Char) : Bool :=
  menu_words.any (fun w => containsSeq w.toList lowered)

/-- Any of the three positive menu signals of the source. -/
def positive_signal (candidate : List Char) : Bool :=
  has_price candidate || decide (2 ≤ candidate.count '\n') ||
    has_menu_words (candidate.map Char.toLower)

inductive SuspiciousKind where
  | tooShort : SuspiciousKind
  | noReadableText : SuspiciousKind
  | gibberish : SuspiciousKind
  | notMenuish : SuspiciousKind
deriving DecidableEq

/-- Embedding of `validate_menu_like_text`; the error value identifies which
of the four SuspiciousMenuInputError messages was raised. -/
def validate_menu_like_text (text : String) : Except SuspiciousKind Unit :=
  let candidate := pyStrip text.toList
  let lowered := candidate.map Char.toLower
  if candidate.length < 20 then .error .tooShort
  else
    let tokens := findall_tokens candidate
    if tokens.isEmpty then .error .noReadableText
    else
      let alpha_chars := candidate.filter (fun c => c.isAlpha)
      let vowels := (alpha_chars.filter
        (fun c => ['a', 'e', 'i', 'o', 'u'].contains c.toLower)).length
      let vowel_ratio : Rat :=
        if alpha_chars.length = 0 then 0 else (vowels : Rat) / (alpha_chars.length : Rat)
      let long_token_ratio : Rat :=
        if tokens.length = 0 then 1
        else ((tokens.filter (fun t => 9 ≤ t.length)).length : Rat) / (tokens.length : Rat)
      let hp := has_price candidate
      let hlb := decide (2 ≤ candidate.count '\n')
      let hmw := has_menu_words lowered
      if !hp && !hlb && !hmw &&
          decide (tokens.length ≤ 3) &&
          (decide (vowel_ratio < 22 / 100) || decide (long_token_ratio > 6 / 10)) then
        .error .gibberish
      else if decide (candidate.length < 120) && !(hp || hlb || hmw) then
        .error .notMenuish
      else .ok ()

/-! ## preprocess_image_for_groq (lines 265-316)

The JPEG encoder is external; it is modeled as a function from the quality
level to the encoded byte count of the (already decoded, RGB-converted,
downscaled) image. -/

def quality_levels : List Nat := [90, 85, 78, 72, 65, 58, 50]

/-- The re-encoding loop: each iteration overwrites (jpeg bytes, used quality)
and breaks at the first encoding within the byte budget. The initial state is
(empty bytes, quality 85) as in the source. -/
def compress_loop (encode : Nat → Nat) : List Nat → Nat × Nat → Nat × Nat
  | [], st => st
  | q :: qs, _ =>
    let n := encode q
    if n ≤ TARGET_IMAGE_BYTES then (n, q) else compress_loop encode qs (n, q)

/-- Embedding of `preprocess_image_for_groq`: returns the byte count and the
quality used, or a ValueError message. `size` is the raw upload size (none
models a missing upload). -/
def preprocess_image_for_groq (size : Option Nat) (encode : Nat → Nat) :
    Except String (Nat × Nat) :=
  match size with
  | none => .error "No image uploaded."
  | some sz =>
    if sz > MAX_IMAGE_UPLOAD_BYTES then .error "Image is too large."
    else
      let st := compress_loop encode quality_levels (0, 85)
      if st.1 > TARGET_IMAGE_BYTES then
        .error "Image is still too large after resize/compression."
      else .ok st

/-! ## Confidence handling of extract_menu_text_from_image (lines 370-391)

Python float() on strings is external and is passed in as a parameter; on
ints, floats and bools it converts exactly (bool is an int subclass); on
None, lists and dicts it raises TypeError. -/

def jsonToFloat (parse : String → Option Rat) : Json → Option Rat
  | .int n => some (n : Rat)
  | .float q => some q
  | .bool b => some (if b then 1 else 0)
  | .str s => parse s
  | _ => none

/-- The confidence stored in VisionExtractionResult: default 0 when the key is
missing, 0 on TypeError/ValueError from float(), then clamped into [0, 1] by
`max(0.0, min(1.0, confidence))`. -/
def confidence_stored (parse : String → Option Rat) (kvs : List (String × Json)) : Rat :=
  let confidence_raw := (getKey kvs "confidence").getD (.int 0)
  let confidence : Rat :=
    match jsonToFloat parse confidence_raw with
    | some q => q
    | none => 0
  max 0 (min 1 confidence)

/-! ## _enforce_rate_limit (pages/01_Menu_Critic.py lines 389-396)

time.time() values are rationals; the session state field last_request_ts is
optional with default 0.0. -/

/-- Model of Python int() on a rational: truncation toward zero. -/
def pyInt (q : Rat) : Int := if 0 ≤ q then q.floor else -((-q).floor)

/-- Embedding of `_enforce_rate_limit`: inside the cooldown window the request
fails with the reported wait in whole seconds; otherwise the timestamp is
updated to now. -/
def enforce_rate_limit (last_request_ts : Option Rat) (now : Rat) : Except Int Rat :=
  let delta := now - (last_request_ts.getD 0)
  if delta < (REQUEST_COOLDOWN_SECONDS : Rat) then
    .error (pyInt ((REQUEST_COOLDOWN_SECONDS : Rat) - delta + 999 / 1000))
  else .ok now

/-! ## Concrete critique objects used to exercise the validator -/

/-- A parsed critique with unexpected keys at every level the schema forbids
them: top level, scores, revenue_levers, a rewrite_examples item and an
ab_tests item. -/
def extraKeysObject : Json :=
  .obj
    [("scores", .obj
        [("clarity", .int 75), ("pricing_psychology", .int 60),
         ("upsell_potential", .int 50), ("menu_structure", .int 80),
         ("dietary_signals", .int 40), ("vibe", .int 3)]),
     ("top_5_changes", .arr [.str "Shorten dish names"]),
     ("revenue_levers", .obj
        [("conversion", .arr [.str "Highlight combos"]), ("aov", .arr []),
         ("margin", .arr []), ("bundles", .arr [.str "extra lever"])]),
     ("rewrite_examples", .arr
        [.obj [("original", .str "o"), ("rewritten", .str "r"),
               ("why_it_helps", .str "w"), ("bonus", .str "b")]]),
     ("ab_tests", .arr
        [.obj [("hypothesis", .str "h"), ("variant_a", .str "a"),
               ("variant_b", .str "b"), ("success_metric", .str "s"),
               ("note", .str "n")]]),
     ("red_flags", .arr []),
     ("unexpected", .str "boo")]

/-- A parsed critique that is valid except that top_5_changes is empty. -/
def emptyTop5Object : Json :=
  .obj
    [("scores", .obj
        [("clarity", .int 75), ("pricing_psychology", .int 60),
         ("upsell_potential", .int 50), ("menu_structure", .int 80),
         ("dietary_signals", .int 40)]),
     ("top_5_changes", .arr []),
     ("revenue_levers", .obj
        [("conversion", .arr []), ("aov", .arr []), ("margin", .arr [])]),
     ("rewrite_examples", .arr []),
     ("ab_tests", .arr []),
     ("red_flags", .arr [])]

/-- A parsed critique that is valid except that top_5_changes has 6 items. -/
def sixTop5Object : Json :=
  .obj
    [("scores", .obj
        [("clarity", .int 75), ("pricing_psychology", .int 60),
         ("upsell_potential", .int 50), ("menu_structure", .int 80),
         ("dietary_signals", .int 40)]),
     ("top_5_changes", .arr
        [.str "one", .str "two", .str "three", .str "four", .str "five",
         .str "six"]),
     ("revenue_levers", .obj
        [("conversion", .arr []), ("aov", .arr []), ("margin", .arr [])]),
     ("rewrite_examples", .arr []),
     ("ab_tests", .arr []),
     ("red_flags", .arr [])]

/-! ## Helper lemmas -/

theorem dropWhile_dropWhile (p : Char → Bool) (l : List Char) :
    (l.dropWhile p).dropWhile p = l.dropWhile p := by
  induction l with
  | nil => simp
  | cons a as ih =>
    by_cases h : p a
    · simpa [List.dropWhile_cons, h] using ih
    · simp [List.dropWhile_cons, h]

theorem dropWhile_head_false (p : Char → Bool) :
    ∀ (l : List Char) (a : Char) (t : List Char),
      l.dropWhile p = a :: t → p a = false := by
  intro l
  induction l with
  | nil => intro a t h; simp at h
  | cons b bs ih =>
    intro a t h
    by_cases hb : p b
    · exact ih a t (by simpa [List.dropWhile_cons, hb] using h)
    · rw [List.dropWhile_cons] at h
      simp [hb] at h
      rcases h with ⟨h1, _⟩
      rw [← h1]
      simpa using hb

theorem dropWhile_getLast? (p : Char → Bool) :
    ∀ (l : List Char), l.dropWhile p ≠ [] →
      (l.dropWhile p).getLast? = l.getLast? := by
  intro l
  induction l with
  | nil => intro h; simp at h
  | cons a as ih =>
    intro h
    by_cases ha : p a
    · rw [List.dropWhile_cons] at h ⊢
      simp only [ha, if_pos] at h ⊢
      have has : as ≠ [] := by
        intro hnil; rw [hnil] at h; simp at h
      rw [ih h]
      cases as with
      | nil => exact absurd rfl has
      | cons b bs => simp [List.getLast?_cons_cons]
    · simp [List.dropWhile_cons, ha]

theorem length_dropWhile_le' (p : Char → Bool) (l : List Char) :
    (l.dropWhile p).length ≤ l.length := by
  induction l with
  | nil => simp
  | cons a as ih =>
    by_cases h : p a
    · rw [List.dropWhile_cons]; simp only [h, if_pos]
      exact Nat.le_succ_of_le ih
    · simp [List.dropWhile_cons, h]

theorem pyStrip_length_le (l : List Char) : (pyStrip l).length ≤ l.length := by
  unfold pyStrip
  rw [List.length_reverse]
  calc ((l.dropWhile isPySpace).reverse.dropWhile isPySpace).length
      ≤ (l.dropWhile isPySpace).reverse.length := length_dropWhile_le' _ _
    _ = (l.dropWhile isPySpace).length := List.length_reverse _
    _ ≤ l.length := length_dropWhile_le' _ _

theorem pyStrip_idem (l : List Char) : pyStrip (pyStrip l) = pyStrip l := by
  unfold pyStrip
  set d := l.dropWhile isPySpace with hd
  set m := d.reverse.dropWhile isPySpace with hm
  -- first: dropWhile on m.reverse does nothing, since the last char of m,
  -- which is the head of m.reverse, is the head of d and fails isPySpace
  have hA : m.reverse.dropWhile isPySpace = m.reverse := by
    cases hmr : m.reverse with
    | nil => simp
    | cons a t =>
      have hma : m ≠ [] := by
        intro h; rw [h] at hmr; simp at hmr
      have hlast : m.getLast? = some a := by
        rw [← List.head?_reverse, hmr]; rfl
      have hdlast : d.reverse.getLast? = some a := by
        rw [← dropWhile_getLast? isPySpace d.reverse (by rw [← hm]; exact hma), ← hm, hlast]
      have hhead : d.head? = some a := by
        rw [← List.getLast?_reverse]; exact hdlast
      have hd_ne : d ≠ [] := by
        intro h; rw [h] at hhead; simp at hhead
      have hpa : isPySpace a = false := by
        cases hdc : d with
        | nil => exact absurd hdc hd_ne
        | cons b bs =>
          have : b = a := by rw [hdc] at hhead; simpa using hhead
          rw [← this]
          exact dropWhile_head_false isPySpace l b bs (by rw [← hd, hdc])
      simp [List.dropWhile_cons, hpa]
  rw [hA, List.reverse_reverse]
  have hB : m.dropWhile isPySpace = m := by
    rw [hm]; exact dropWhile_dropWhile isPySpace d.reverse
  rw [hB]

theorem dropWhile_cons_false (p : Char → Bool) (a : Char) (t : List Char)
    (h : p a = false) : List.dropWhile p (a :: t) = a :: t := by
  simp [List.dropWhile_cons, h]

theorem repl_succ_append (n : Nat) (c : Char) (rest : List Char) :
    List.replicate (n + 1) c ++ rest = c :: (List.replicate n c ++ rest) := by
  rw [List.replicate_succ]
  rfl

theorem pyStrip_c3Family (n : Nat) : pyStrip (c3Family n) = c3Family n := by
  have hfront : (c3Family n).dropWhile isPySpace = c3Family n := by
    unfold c3Family
    rw [repl_succ_append]
    exact dropWhile_cons_false _ _ _ (by decide)
  have e2 : (c3Family n).reverse =
      'b' :: ('b' :: ' ' :: (List.replicate (n + 1) 'a').reverse) := by
    unfold c3Family
    rw [List.reverse_append]
    rfl
  have hrev : (c3Family n).reverse.dropWhile isPySpace = (c3Family n).reverse := by
    rw [e2]
    exact dropWhile_cons_false _ _ _ (by decide)
  unfold pyStrip
  rw [hfront, hrev, List.reverse_reverse]

theorem c3Family_len (n : Nat) : (c3Family n).length = n + 4 := by
  simp only [c3Family, List.length_append, List.length_replicate]
  simp

theorem clamp_c3Family_once (n : Nat) (h : n + 2 = MAX_TEXT_CHARS) :
    clamp_text_input (c3Family n) = List.replicate (n + 1) 'a' ++ [' '] := by
  unfold clamp_text_input
  rw [pyStrip_c3Family]
  rw [if_pos (by rw [c3Family_len]; omega)]
  rw [← h]
  show (List.replicate (n + 1) 'a' ++ [' ', 'b', 'b']).take (n + 2) = _
  rw [List.take_append_eq_append_take]
  congr 1
  · exact List.take_of_length_le (by simp)
  · have hlen : n + 2 - (List.replicate (n + 1) 'a').length = 1 := by
      simp only [List.length_replicate]
      omega
    rw [hlen]
    rfl

theorem clamp_repl_space (n : Nat) (h : n + 1 ≤ MAX_TEXT_CHARS) :
    clamp_text_input (List.replicate (n + 1) 'a' ++ [' ']) =
      List.replicate (n + 1) 'a' := by
  have hfront : (List.replicate (n + 1) 'a' ++ [' ']).dropWhile isPySpace =
      List.replicate (n + 1) 'a' ++ [' '] := by
    rw [repl_succ_append]
    exact dropWhile_cons_false _ _ _ (by decide)
  have e3 : (List.replicate (n + 1) 'a').reverse = List.replicate (n + 1) 'a' := by
    rw [List.reverse_replicate]
  have hrev : (List.replicate (n + 1) 'a' ++ [' ']).reverse.dropWhile isPySpace =
      List.replicate (n + 1) 'a' := by
    rw [List.reverse_append]
    show List.dropWhile isPySpace (' ' :: (List.replicate (n + 1) 'a').reverse) = _
    rw [List.dropWhile_cons, if_pos (by decide), e3, List.replicate_succ]
    exact dropWhile_cons_false _ _ _ (by decide)
  unfold clamp_text_input pyStrip
  rw [hfront, hrev, e3]
  rw [if_neg (by simp only [List.length_replicate]; omega)]

/-- C3 counterexample: clamp_text_input is not idempotent. On a 12002-char
input (11999 letters, a space, two letters) the truncation to 12000 chars ends
in a space, which the second application strips, so the results differ. -/
theorem clamp_not_idempotent :
    clamp_text_input (clamp_text_input c3Input) ≠ clamp_text_input c3Input := by
  unfold c3Input
  rw [clamp_c3Family_once 11998 (by norm_num [MAX_TEXT_CHARS])]
  rw [clamp_repl_space 11998 (by norm_num [MAX_TEXT_CHARS])]
  intro h
  have h2 := congrArg List.length h
  simp only [List.length_append, List.length_replicate, List.length_cons,
    List.length_nil] at h2
  omega

/-- C3 (amended): the clamped length never exceeds 12000 characters, and
clamp_text_input is idempotent on every input whose stripped form fits in
12000 characters (that is, whenever no truncation occurs); idempotence can
fail only when truncation exposes trailing whitespace. -/
theorem clamp_text_props :
    (∀ l : List Char, (clamp_text_input l).length ≤ MAX_TEXT_CHARS) ∧
    (∀ l : List Char, (pyStrip l).length ≤ MAX_TEXT_CHARS →
      clamp_text_input (clamp_text_input l) = clamp_text_input l) := by
  constructor
  · intro l
    unfold clamp_text_input
    by_cases h : (pyStrip l).length > MAX_TEXT_CHARS
    · simp only [h, if_pos]
      simp
    · simp only [h, if_neg, not_false_iff]
      omega
  · intro l h
    unfold clamp_text_input
    have h1 : ¬ (pyStrip l).length > MAX_TEXT_CHARS := by omega
    simp only [h1, if_neg, not_false_iff]
    rw [pyStrip_idem]
    have h2 : ¬ (pyStrip l).length > MAX_TEXT_CHARS := h1
    simp only [h2, if_neg, not_false_iff]

/-- Witness for the amended C3 theorem at a concrete input. -/
theorem clamp_text_props_witness :
    clamp_text_input (clamp_text_input (" menu ".toList)) =
      clamp_text_input (" menu ".toList) :=
  clamp_text_props.2 (" menu ".toList) (by decide)

/-! ## Claim theorems -/

/-- C1 (code bug evidence): the independent re-validation accepts a parsed
critique that carries unexpected keys at the top level, inside scores, inside
revenue_levers, and inside rewrite_examples and ab_tests items, and analyze
returns it as a successful result instead of raising InvalidJSONResponse —
even though CRITIQUE_JSON_SCHEMA in the same module declares
additionalProperties false at every one of those levels. -/
theorem extra_keys_accepted :
    manual_validate_critique extraKeysObject = .ok extraKeysObject ∧
    (analyze_menu_text (fun _ => .success "raw") (fun _ => some extraKeysObject)
        "menu" "Fix my menu" "Grow" none).1 =
      .ok (extraKeysObject, pyStripStr "raw", .jsonSchema) := by
  constructor
  · rfl
  · rfl

/-- C2 (code bug evidence): the independent re-validation never checks the
length of top_5_changes, so analyze returns results whose top_5_changes is
empty or has six entries instead of raising InvalidJSONResponse — even though
CRITIQUE_JSON_SCHEMA in the same module declares minItems 1 and maxItems 5. -/
theorem top5_length_unchecked :
    (analyze_menu_text (fun _ => .success "raw") (fun _ => some emptyTop5Object)
        "menu" "Fix my menu" "Grow" none).1 =
      .ok (emptyTop5Object, pyStripStr "raw", .jsonSchema) ∧
    (analyze_menu_text (fun _ => .success "raw") (fun _ => some sixTop5Object)
        "menu" "Fix my menu" "Grow" none).1 =
      .ok (sixTop5Object, pyStripStr "raw", .jsonSchema) := by
  constructor
  · rfl
  · rfl

theorem firstMissingKey_isSome (kvs : List (String × Json)) :
    ∀ (ks : List String) (k : String), k ∈ ks → getKey kvs k = none →
      ∃ k0, firstMissingKey kvs ks = some k0 := by
  intro ks
  induction ks with
  | nil => intro k hk _; simp at hk
  | cons a as ih =>
    intro k hk hnone
    cases hga : getKey kvs a with
    | none => exact ⟨a, by simp [firstMissingKey, hga]⟩
    | some v =>
      have hka : k ≠ a := by
        intro he; rw [he, hga] at hnone; exact Option.noConfusion hnone
      have hk' : k ∈ as := by
        rcases List.mem_cons.mp hk with h | h
        · exact absurd h hka
        · exact h
      obtain ⟨k0, hk0⟩ := ih k hk' hnone
      exact ⟨k0, by simp [firstMissingKey, hga, hk0]⟩

/-- C4: when the model response parses to a JSON object missing at least one
of the 6 required top-level keys, analyze fails with InvalidJSONResponse
carrying the raw output, never returning a partially-populated result. -/
theorem missing_key_invalid_json (provider : ChatRequest → CallOutcome)
    (json_loads : String → Option Json) (mt mode goal : String)
    (ctx : Option String) (content : String) (kvs : List (String × Json))
    (k : String)
    (hsucc : provider (primary_request mt mode goal ctx) = .success content)
    (hparse : json_loads (pyStripStr content) = some (.obj kvs))
    (hmem : k ∈ requiredTopKeys) (hmiss : getKey kvs k = none) :
    ∃ msg, (analyze_menu_text provider json_loads mt mode goal ctx).1 =
      .error (.invalidJSON (pyStripStr content) msg) := by
  obtain ⟨k0, hk0⟩ := firstMissingKey_isSome kvs requiredTopKeys k hmem hmiss
  refine ⟨"JSON shape was invalid: " ++ ("Missing key: " ++ k0), ?_⟩
  have hstep : (analyze_menu_text provider json_loads mt mode goal ctx).1 =
      analyze_post_parse (json_loads (pyStripStr content)) (pyStripStr content)
        .jsonSchema := by
    unfold analyze_menu_text
    rw [hsucc]
  rw [hstep, hparse]
  simp [analyze_post_parse, manual_validate_critique, hk0]

/-- Witness for C4 at a concrete provider and parse result. -/
theorem missing_key_invalid_json_witness :
    ∃ msg, (analyze_menu_text (fun _ => .success "x") (fun _ => some (.obj []))
        "m" "Fix" "g" none).1 =
      .error (.invalidJSON (pyStripStr "x") msg) :=
  missing_key_invalid_json (fun _ => .success "x") (fun _ => some (.obj []))
    "m" "Fix" "g" none "x" [] "scores" rfl rfl (by decide) rfl

/-- C5: when the primary json_schema request fails, a rate-limit-classified
error aborts immediately as RateLimitLikeError with no fallback request;
otherwise exactly one fallback request is issued in json_object mode with the
same model, temperature and messages, and a rate-limit-classified failure of
that fallback also surfaces as RateLimitLikeError. -/
theorem analyze_fallback_policy (provider : ChatRequest → CallOutcome)
    (json_loads : String → Option Json) (mt mode goal : String)
    (ctx : Option String) (e : String)
    (hfail : provider (primary_request mt mode goal ctx) = .failure e) :
    (is_rate_limit_error e = true →
      analyze_menu_text provider json_loads mt mode goal ctx =
        (.error (.rateLimitLike e), [primary_request mt mode goal ctx])) ∧
    (is_rate_limit_error e = false →
      (analyze_menu_text provider json_loads mt mode goal ctx).2 =
        [primary_request mt mode goal ctx,
         fallback_request (primary_request mt mode goal ctx)] ∧
      (fallback_request (primary_request mt mode goal ctx)).responseFormat =
        .jsonObject ∧
      (fallback_request (primary_request mt mode goal ctx)).model =
        (primary_request mt mode goal ctx).model ∧
      (fallback_request (primary_request mt mode goal ctx)).temperature =
        (primary_request mt mode goal ctx).temperature ∧
      (fallback_request (primary_request mt mode goal ctx)).systemPrompt =
        (primary_request mt mode goal ctx).systemPrompt ∧
      (fallback_request (primary_request mt mode goal ctx)).userPrompt =
        (primary_request mt mode goal ctx).userPrompt ∧
      (∀ e2, provider (fallback_request (primary_request mt mode goal ctx)) =
          .failure e2 → is_rate_limit_error e2 = true →
        (analyze_menu_text provider json_loads mt mode goal ctx).1 =
          .error (.rateLimitLike e2))) := by
  constructor
  · intro hrl
    unfold analyze_menu_text
    rw [hfail]
    simp [hrl]
  · intro hnrl
    have hunf : analyze_menu_text provider json_loads mt mode goal ctx =
        (match provider (fallback_request (primary_request mt mode goal ctx)) with
         | .success content =>
           (analyze_post_parse (json_loads (pyStripStr content))
              (pyStripStr content) .jsonObject,
            [primary_request mt mode goal ctx,
             fallback_request (primary_request mt mode goal ctx)])
         | .failure exc2 =>
           if is_rate_limit_error exc2 then
             (.error (.rateLimitLike exc2),
              [primary_request mt mode goal ctx,
               fallback_request (primary_request mt mode goal ctx)])
           else
             (.error (.menuCritic ("Groq request failed: " ++ exc2)),
              [primary_request mt mode goal ctx,
               fallback_request (primary_request mt mode goal ctx)])) := by
      unfold analyze_menu_text
      rw [hfail]
      simp [hnrl]
    refine ⟨?_, rfl, rfl, rfl, rfl, rfl, ?_⟩
    · rw [hunf]
      cases hp2 : provider (fallback_request (primary_request mt mode goal ctx)) with
      | success content => rfl
      | failure exc2 =>
        by_cases h2 : is_rate_limit_error exc2 = true
        · simp [h2]
        · simp [h2]
    · intro e2 hf2 hrl2
      rw [hunf, hf2]
      simp [hrl2]

/-- Witness for C5: a provider that always fails with a non-rate-limit error
message issues the json_object fallback request after the primary one. -/
theorem analyze_fallback_policy_witness :
    is_rate_limit_error "boom" = false ∧
    (analyze_menu_text (fun _ => .failure "boom") (fun _ => none)
        "m" "Fix" "g" none).2 =
      [primary_request "m" "Fix" "g" none,
       fallback_request (primary_request "m" "Fix" "g" none)] :=
  ⟨by decide,
   ((analyze_fallback_policy (fun _ => .failure "boom") (fun _ => none)
       "m" "Fix" "g" none "boom" rfl).2 (by decide)).1⟩

/-- C10: for a mode whose lowercased form starts with neither fix nor roast,
the request is issued with temperature 1.0 — the Roast-mode temperature —
while the user prompt carries the Fix-mode requirements block, because the
temperature tests the prefix fix and the prompt independently tests the
prefix roast. -/
theorem mode_mismatch (mt mode goal : String) (ctx : Option String)
    (hfix : pyStartsWith (pyLower mode) "fix" = false)
    (hroast : pyStartsWith (pyLower mode) "roast" = false) :
    temperature_for mode = 1 ∧
    temperature_for "Roast" = 1 ∧
    (primary_request mt mode goal ctx).temperature = 1 ∧
    critique_user_prompt mt mode goal ctx =
      prompt_head mode goal (safe_context_of ctx) ++ fix_mode_requirements ++
        prompt_tail mt := by
  have ht : temperature_for mode = 1 := by
    unfold temperature_for
    rw [hfix]
    rfl
  refine ⟨ht, by decide, ht, ?_⟩
  unfold critique_user_prompt mode_specific_of
  rw [hroast]
  rfl

/-- Witness for C10 at the empty mode string. -/
theorem mode_mismatch_witness :
    temperature_for "" = 1 ∧
    temperature_for "Roast" = 1 ∧
    (primary_request "menu" "" "Grow" none).temperature = 1 ∧
    critique_user_prompt "menu" "" "Grow" none =
      prompt_head "" "Grow" (safe_context_of none) ++ fix_mode_requirements ++
        prompt_tail "menu" :=
  mode_mismatch "menu" "" "Grow" none (by decide) (by decide)

theorem compress_loop_find_some (encode : Nat → Nat) :
    ∀ (qs : List Nat) (st : Nat × Nat) (q : Nat),
      qs.find? (fun x => decide (encode x ≤ TARGET_IMAGE_BYTES)) = some q →
      compress_loop encode qs st = (encode q, q) := by
  intro qs
  induction qs with
  | nil => intro st q h; simp at h
  | cons q0 qs' ih =>
    intro st q h
    by_cases h0 : encode q0 ≤ TARGET_IMAGE_BYTES
    · rw [List.find?_cons_of_pos _ (by simpa using h0)] at h
      obtain rfl : q0 = q := Option.some.inj h
      simp [compress_loop, h0]
    · rw [List.find?_cons_of_neg _ (by simpa using h0)] at h
      have hrest := ih (encode q0, q0) q h
      have hstep : compress_loop encode (q0 :: qs') st =
          compress_loop encode qs' (encode q0, q0) := by
        simp [compress_loop, h0]
      rw [hstep, hrest]

theorem compress_loop_find_none (encode : Nat → Nat) :
    ∀ (qs : List Nat) (st : Nat × Nat),
      qs.find? (fun x => decide (encode x ≤ TARGET_IMAGE_BYTES)) = none →
      qs ≠ [] →
      ∃ q, compress_loop encode qs st = (encode q, q) ∧
        TARGET_IMAGE_BYTES < encode q := by
  intro qs
  induction qs with
  | nil => intro st _ hne; exact absurd rfl hne
  | cons q0 qs' ih =>
    intro st h _
    have h0 : ¬ encode q0 ≤ TARGET_IMAGE_BYTES := by
      intro hc
      rw [List.find?_cons_of_pos _ (by simpa using hc)] at h
      exact Option.noConfusion h
    rw [List.find?_cons_of_neg _ (by simpa using h0)] at h
    cases qs' with
    | nil => exact ⟨q0, by simp [compress_loop, h0], by omega⟩
    | cons q1 qs'' =>
      obtain ⟨q, hq, hgt⟩ := ih (encode q0, q0) h (by simp)
      refine ⟨q, ?_, hgt⟩
      have hstep : compress_loop encode (q0 :: q1 :: qs'') st =
          compress_loop encode (q1 :: qs'') (encode q0, q0) := by
        simp [compress_loop, h0]
      rw [hstep]
      exact hq

/-- C6: whenever image preprocessing succeeds, the returned payload is within
the 3,500,000-byte budget, and the quality used is the first of
[90, 85, 78, 72, 65, 58, 50] whose encoding fits the budget; when no quality
fits, the call fails with a ValueError instead of returning oversized bytes. -/
theorem image_bytes_bounded (encode : Nat → Nat) (size : Nat) (n q : Nat)
    (h : preprocess_image_for_groq (some size) encode = .ok (n, q)) :
    n ≤ TARGET_IMAGE_BYTES ∧
    quality_levels.find? (fun x => decide (encode x ≤ TARGET_IMAGE_BYTES)) = some q ∧
    n = encode q := by
  simp only [preprocess_image_for_groq] at h
  by_cases hsz : size > MAX_IMAGE_UPLOAD_BYTES
  · rw [if_pos hsz] at h
    exact Except.noConfusion h
  · rw [if_neg hsz] at h
    cases hf : quality_levels.find? (fun x => decide (encode x ≤ TARGET_IMAGE_BYTES)) with
    | some q' =>
      have hle : encode q' ≤ TARGET_IMAGE_BYTES := by
        have := List.find?_some hf
        simpa using this
      have hloop := compress_loop_find_some encode quality_levels (0, 85) q' hf
      rw [hloop] at h
      rw [if_neg (by simpa using hle)] at h
      have hp : (encode q', q') = (n, q) := Except.ok.inj h
      have hn : n = encode q' := (congrArg Prod.fst hp).symm
      have hq : q = q' := (congrArg Prod.snd hp).symm
      subst hn
      subst hq
      exact ⟨hle, rfl, rfl⟩
    | none =>
      obtain ⟨q0, hloop, hgt⟩ :=
        compress_loop_find_none encode quality_levels (0, 85) hf
          (by simp [quality_levels])
      rw [hloop] at h
      rw [if_pos (by simpa using hgt)] at h
      exact Except.noConfusion h

/-- Witness for C6 with the identity encoder: quality 90 already fits. -/
theorem image_bytes_bounded_witness :
    90 ≤ TARGET_IMAGE_BYTES ∧
    quality_levels.find?
      (fun x => decide ((fun y => y) x ≤ TARGET_IMAGE_BYTES)) = some 90 ∧
    90 = (fun y : Nat => y) 90 :=
  image_bytes_bounded (fun y => y) 0 90 90 rfl

/-- C7: any one positive menu signal — a price pattern, at least two line
breaks, or a menu keyword — means the Input Guard applies neither the
gibberish rule nor the short-text rule: the input can then only be rejected
by the two preconditions (length below 20, or no alphabetic token). -/
theorem guard_signal_bypass (text : String)
    (h : positive_signal (pyStrip text.toList) = true) :
    validate_menu_like_text text = .ok () ∨
    validate_menu_like_text text = .error .tooShort ∨
    validate_menu_like_text text = .error .noReadableText := by
  unfold positive_signal at h
  have hb1 : ∀ a b c d e : Bool, (a || b || c) = true →
      (!a && !b && !c && d && e) = false := by decide
  have hb2 : ∀ a b c d : Bool, (a || b || c) = true →
      (d && !(a || b || c)) = false := by decide
  simp only [validate_menu_like_text]
  by_cases h1 : (pyStrip text.toList).length < 20
  · rw [if_pos h1]
    right; left; rfl
  rw [if_neg h1]
  by_cases h2 : (findall_tokens (pyStrip text.toList)).isEmpty = true
  · rw [if_pos h2]
    right; right; rfl
  rw [if_neg h2]
  rw [if_neg (fun hcontra => by
    rw [hb1 _ _ _ _ _ h] at hcontra
    exact Bool.noConfusion hcontra)]
  rw [if_neg (fun hcontra => by
    rw [hb2 _ _ _ _ h] at hcontra
    exact Bool.noConfusion hcontra)]
  left; rfl

/-- Witness for C7: a dollar-sign price is a positive signal; the input is
still rejected, but only by the length precondition. -/
theorem guard_signal_bypass_witness :
    positive_signal (pyStrip "$5".toList) = true ∧
    (validate_menu_like_text "$5" = .ok () ∨
     validate_menu_like_text "$5" = .error .tooShort ∨
     validate_menu_like_text "$5" = .error .noReadableText) :=
  ⟨by decide, guard_signal_bypass "$5" (by decide)⟩

/-- C8: the stored vision confidence always lies in [0, 1]; a missing key or a
value float() rejects is coerced to 0, and out-of-range numeric values are
clamped to the nearest bound. `parse` models Python float() on strings. -/
theorem confidence_clamped :
    (∀ (parse : String → Option Rat) (kvs : List (String × Json)),
      0 ≤ confidence_stored parse kvs ∧ confidence_stored parse kvs ≤ 1) ∧
    (∀ parse kvs, getKey kvs "confidence" = none →
      confidence_stored parse kvs = 0) ∧
    (∀ parse kvs v, getKey kvs "confidence" = some v →
      jsonToFloat parse v = none → confidence_stored parse kvs = 0) ∧
    (∀ parse kvs v q, getKey kvs "confidence" = some v →
      jsonToFloat parse v = some q → 1 < q → confidence_stored parse kvs = 1) ∧
    (∀ parse kvs v q, getKey kvs "confidence" = some v →
      jsonToFloat parse v = some q → q < 0 → confidence_stored parse kvs = 0) := by
  refine ⟨?_, ?_, ?_, ?_, ?_⟩
  · intro parse kvs
    simp only [confidence_stored]
    constructor
    · exact le_max_left 0 _
    · exact max_le (by norm_num) (min_le_left 1 _)
  · intro parse kvs hnone
    simp only [confidence_stored]
    rw [hnone]
    norm_num [jsonToFloat]
  · intro parse kvs v hsome hnone
    simp only [confidence_stored]
    rw [hsome, Option.getD_some, hnone]
    show max (0 : Rat) (min 1 0) = 0
    norm_num
  · intro parse kvs v q hsome hval hgt
    simp only [confidence_stored]
    rw [hsome, Option.getD_some, hval]
    show max (0 : Rat) (min 1 q) = 1
    rw [min_eq_left (le_of_lt hgt)]
    exact max_eq_right (by norm_num)
  · intro parse kvs v q hsome hval hlt
    simp only [confidence_stored]
    rw [hsome, Option.getD_some, hval]
    show max (0 : Rat) (min 1 q) = 0
    rw [min_eq_right (le_of_lt (lt_trans hlt one_pos))]
    exact max_eq_left (le_of_lt hlt)

/-- Witness for C8 at concrete confidence values 2, -1, null and missing. -/
theorem confidence_clamped_witness :
    (0 ≤ confidence_stored (fun _ => none) [("confidence", Json.float 2)] ∧
      confidence_stored (fun _ => none) [("confidence", Json.float 2)] ≤ 1) ∧
    confidence_stored (fun _ => none) [] = 0 ∧
    confidence_stored (fun _ => none) [("confidence", Json.null)] = 0 ∧
    confidence_stored (fun _ => none) [("confidence", Json.float 2)] = 1 ∧
    confidence_stored (fun _ => none) [("confidence", Json.float (-1))] = 0 :=
  ⟨confidence_clamped.1 _ _,
   confidence_clamped.2.1 _ _ rfl,
   confidence_clamped.2.2.1 _ _ _ rfl rfl,
   confidence_clamped.2.2.2.1 _ _ _ 2 rfl rfl (by norm_num),
   confidence_clamped.2.2.2.2 _ _ _ (-1) rfl rfl (by norm_num)⟩

/-- C9: a request issued strictly inside the 10-second cooldown window fails
fast with a wait-time error, and a request 3 seconds after the previous one
fails reporting a remaining wait of at least 7 seconds (exactly 7, via
int(10 - 3 + 0.999)). -/
theorem cooldown_enforced :
    (∀ last now : Rat, now - last < (REQUEST_COOLDOWN_SECONDS : Rat) →
      ∃ w : Int, enforce_rate_limit (some last) now = .error w) ∧
    (∀ t : Rat, ∃ w : Int,
      enforce_rate_limit (some t) (t + 3) = .error w ∧ 7 ≤ w) := by
  constructor
  · intro last now h
    refine ⟨pyInt ((REQUEST_COOLDOWN_SECONDS : Rat) - (now - last) + 999 / 1000), ?_⟩
    simp only [enforce_rate_limit, Option.getD_some]
    rw [if_pos h]
  · intro t
    refine ⟨7, ?_, le_refl 7⟩
    simp only [enforce_rate_limit, Option.getD_some]
    have hd : t + 3 - t = (3 : Rat) := by ring
    rw [hd]
    rw [if_pos (by norm_num [REQUEST_COOLDOWN_SECONDS])]
    have hv : (REQUEST_COOLDOWN_SECONDS : Rat) - 3 + 999 / 1000 = 7999 / 1000 := by
      norm_num [REQUEST_COOLDOWN_SECONDS]
    rw [hv]
    have hfl : Rat.floor (7999 / 1000 : Rat) = 7 := by
      have hlow : (7 : Int) ≤ Rat.floor (7999 / 1000 : Rat) :=
        Rat.le_floor.mpr (by norm_num)
      have hhigh : Rat.floor (7999 / 1000 : Rat) < 8 := by
        by_contra hc
        push_neg at hc
        have := Rat.le_floor.mp hc
        norm_num at this
      omega
    have hp : pyInt (7999 / 1000) = 7 := by
      unfold pyInt
      rw [if_pos (by norm_num)]
      exact hfl
    rw [hp]

/-- Witness for C9 at last = 0, now = 3. -/
theorem cooldown_enforced_witness :
    (∃ w : Int, enforce_rate_limit (some 0) 3 = .error w) ∧
    (∃ w : Int, enforce_rate_limit (some 0) (0 + 3) = .error w ∧ 7 ≤ w) :=
  ⟨cooldown_enforced.1 0 3 (by norm_num [REQUEST_COOLDOWN_SECONDS]),
   cooldown_enforced.2 0⟩

end MenuCritic
